import Mathlib

/-!
Verification of the dab-tools protocol bridge: a shallow embedding of the
MQTT request/response correlation engine
(`src/adapters/dab-adb-bridge/src/lib/mqtt_client/client.ts`), the
telemetry session manager (`DabDeviceBase` in `src/unnamed/part_000`) and
the adb bridge's application handlers
(`src/adapters/dab-adb-bridge/src/lib/dab_adb_bridge.ts`), together with
theorems settling the specification's claims about them.

The single-threaded JavaScript runtime is modelled by explicit state
passing: each asynchronous callback of the source becomes a step of a state
machine, and the order in which the source invokes transport operations
becomes an explicit operation list.
-/

namespace DabTools

/-! ### Transport wrapper: `Client.handleMessage` (client.ts lines 60-76)

The inbound payload buffer is modelled as `Option String` (`none` is a
missing buffer), the MQTT packet by an abstract numeric identity, and
`JSON.parse` by a caller-supplied predicate `jsonParses` telling which raw
texts parse (the embedding does not re-implement a JSON parser; the claims
depend only on whether parsing succeeds). -/

/-- The value `Client.handleMessage` emits to local listeners: the initial
empty object `{}` (kept when the buffer is missing or empty), a parsed
payload, or the synthetic parse-failure envelope
`{status: 500, error: "failed to parse msg", msg, packet}` built in the
catch branch. The constructor's field order mirrors the source's object
literal: the raw text is carried under the key `msg`. -/
inductive EmittedPayload where
  | emptyObj
  | parsed (text : String)
  | parseFailure (status : Int) (error : String) (msg : String) (packet : Nat)
deriving DecidableEq, Repr

/-- Embedding of `Client.handleMessage` (client.ts lines 60-76): start from
`{}`; when the buffer is present and non-empty, try `JSON.parse` and on
failure replace the response with the synthetic 500 envelope; emit the
result to the listeners. No branch throws. -/
def handleMessage (jsonParses : String → Bool) (msg : Option String) (pkt : Nat) :
    EmittedPayload :=
  match msg with
  | some s =>
    if s.length ≠ 0 then
      if jsonParses s then EmittedPayload.parsed s
      else EmittedPayload.parseFailure 500 "failed to parse msg" s pkt
    else EmittedPayload.emptyObj
  | none => EmittedPayload.emptyObj

/-! ### Correlation layer: `Client.request` (client.ts lines 104-136)

`request` creates a promise, arms a timer, registers a response listener
and publishes the request.  Its later life is driven by three callbacks:
the response listener, the timer callback, and the rejection handler of the
initial publish.  The embedding makes the reachable callback state explicit
(`settled` is the promise's one-shot result, `timerArmed` whether the
`setTimeout` timer is still pending, `listenerActive` whether the
temporary response subscription still delivers messages) and each callback
run a step of `ReqState.step`. -/

/-- A response envelope as seen by the listener in `request`: the `status`
field (absent when the JSON object has none) and an abstract identity for
the rest of the payload. -/
structure RespMsg where
  status : Option Int
  body : Nat
deriving DecidableEq, Repr

/-- JavaScript's `msg.status > 299` comparison: comparing `undefined` with a
number is `false`, so a missing status never takes the rejection branch. -/
def jsGtStatus : Option Int → Int → Bool
  | some n, k => decide (k < n)
  | none, _ => false

/-- The terminal result of a `request` promise: `resolve(msg)`,
`reject(msg)` (application-level status), `reject(TimeoutError ...)`, or
`reject(err)` from the failed initial publish. -/
inductive ReqOutcome where
  | success (msg : RespMsg)
  | appError (msg : RespMsg)
  | timedOut
  | transportError
deriving DecidableEq, Repr

/-- The callback-visible state of one `request` call. -/
structure ReqState where
  settled : Option ReqOutcome
  timerArmed : Bool
  listenerActive : Bool
deriving DecidableEq, Repr

/-- State right after the executor ran: timer armed, listener registered,
promise pending. -/
def initReqState : ReqState :=
  { settled := none, timerArmed := true, listenerActive := true }

/-- Promise settlement is one-shot: `resolve`/`reject` on an already settled
promise changes nothing. -/
def settleOnce (cur : Option ReqOutcome) (o : ReqOutcome) : Option ReqOutcome :=
  match cur with
  | some x => some x
  | none => some o

/-- The listener body (client.ts lines 121-128): `if (msg.status > 299)
reject(msg); else resolve(msg)`. -/
def respondOutcome (m : RespMsg) : ReqOutcome :=
  if jsGtStatus m.status 299 then ReqOutcome.appError m else ReqOutcome.success m

/-- The events that can reach a pending `request`: a message delivered on
the response topic, the timer firing, and the initial publish failing. -/
inductive ReqEvent where
  | respond (m : RespMsg)
  | timerFires
  | publishFails
deriving DecidableEq, Repr

/-- One callback run of `request` (client.ts lines 116-135).
`respond`: the listener clears the timer, settles by status, and ends the
subscription — it runs only while the listener is registered.
`timerFires`: the timer callback rejects with the timeout error and ends
the subscription — it runs only while the timer is armed.
`publishFails`: the `catch` of the initial publish ends the subscription
and rejects with the transport error; it does NOT call `clearTimeout`, so
the timer stays armed. -/
def ReqState.step (s : ReqState) : ReqEvent → ReqState
  | ReqEvent.respond m =>
    if s.listenerActive then
      { settled := settleOnce s.settled (respondOutcome m),
        timerArmed := false,
        listenerActive := false }
    else s
  | ReqEvent.timerFires =>
    if s.timerArmed then
      { settled := settleOnce s.settled ReqOutcome.timedOut,
        timerArmed := false,
        listenerActive := false }
    else s
  | ReqEvent.publishFails =>
    { settled := settleOnce s.settled ReqOutcome.transportError,
      timerArmed := s.timerArmed,
      listenerActive := false }

/-- A whole sequence of events applied to a request's state. -/
def ReqState.run (s : ReqState) (es : List ReqEvent) : ReqState :=
  es.foldl ReqState.step s

/-! ### Correlation layer setup order: `Client.request` and
`Client.subscribe` (client.ts lines 84-97 and 112-135)

The promise executor runs synchronously: it arms the timer, then calls
`this.subscribe`, whose body registers the local listener and invokes the
transport's `subscribe` before its first suspension, and only then calls
`this.publish`, which invokes the transport's `publish`. The embedding
records that invocation order as a list. `convertPattern` lives in
`mqtt_client/util.js`, which is not part of the repository snapshot; only
the value it gives the listener key matters here, so it is passed in as an
abstract function. -/

/-- One transport-facing operation started by the `request` executor. -/
inductive SetupOp where
  | armTimer
  | listenerOn (event : String)
  | brokerSubscribe (topic : String)
  | brokerPublish (topic : String)
deriving DecidableEq, Repr

/-- The response topic `request` subscribes to: `_response/<topic>/<id>`. -/
def responseTopicOf (topic rid : String) : String :=
  "_response/" ++ topic ++ "/" ++ rid

/-- The topic `request` publishes to: `<topic>/<id>`. -/
def requestTopicOf (topic rid : String) : String :=
  topic ++ "/" ++ rid

/-- The transport operations the `request` executor starts, in source
order: `setTimeout` (line 117), then inside `this.subscribe` the
`emitter.on` and the transport `subscribe` call (lines 85-87), then the
transport `publish` call (line 131). -/
def requestSetupOps (cp : String → String) (topic rid : String) : List SetupOp :=
  [ SetupOp.armTimer,
    SetupOp.listenerOn (cp (responseTopicOf topic rid)),
    SetupOp.brokerSubscribe (responseTopicOf topic rid),
    SetupOp.brokerPublish (requestTopicOf topic rid) ]

/-! ### Status envelope builder: `DabDeviceBase.dabResponse`
(part_000 lines 311-318)

`Math.floor(status / 100)` on an integer status is flooring division,
`Int.fdiv`. A missing or empty error text for a non-2xx status throws
(`Except.error`); otherwise the envelope is returned. -/

/-- The canonical response envelope: integer status and optional error
text. -/
structure DabResponse where
  status : Int
  error : Option String
deriving DecidableEq, Repr

/-- Embedding of `DabDeviceBase.dabResponse`: build `{status}`, and when
`Math.floor(status / 100) !== 2` require an error text (JavaScript's
`!error` is also true for the empty string) and attach it. -/
def dabResponse (status : Int := 200) (error : Option String := none) :
    Except String DabResponse :=
  let response : DabResponse := { status := status, error := none }
  if status.fdiv 100 ≠ 2 then
    match error with
    | none => Except.error "Error message must be returned for non 2XX status results"
    | some e =>
      if e = "" then Except.error "Error message must be returned for non 2XX status results"
      else Except.ok { response with error := some e }
  else Except.ok response

/-! ### Session/telemetry manager: `DabDeviceBase` (part_000 lines 225-618)

The `telemetry` object maps a key — the fixed `device` key or an
application id — to the running session's `setInterval` handle. A session
is modelled by its period and by what each firing of the interval
publishes. A request's `frequency` field is a JavaScript value:
`Option JsNum`, where `none` is a missing or non-number field and
`JsNum.nonInt` a number that is not an integer; `Number.isInteger` accepts
exactly `JsNum.int`.

The telemetry callback `cb` is a function value, so the
`typeof cb !== "function"` guard of `startAppTelemetryImpl` is statically
false in the embedding. What a publish carries is modelled by `PubValue`:
`producerResult` is the value of `await cb()` — the producer invoked, its
result awaited — while `producerFunction` is the value of `await cb` — the
callback object itself, awaited without being invoked, which is what
`startAppTelemetryImpl` passes to `publish` (part_000 lines 370 and 373). -/

/-- A JavaScript number as far as `Number.isInteger` can tell: an integer,
or some non-integer number (fractional, NaN, Infinity). -/
inductive JsNum where
  | int (n : Int)
  | nonInt
deriving DecidableEq, Repr

/-- What a telemetry publish carries: the producer's result (`await cb()`)
or the producer function object itself (`await cb`). -/
inductive PubValue where
  | producerResult
  | producerFunction
deriving DecidableEq, Repr

/-- An active telemetry session: the `setInterval` period and what each
firing publishes. -/
structure TelemetrySession where
  frequency : Int
  each : PubValue
deriving DecidableEq, Repr

/-- The `telemetry` map of `DabDeviceBase`: the optional device session and
the per-application sessions. -/
structure TelemetryState where
  device : Option TelemetrySession
  apps : List (String × TelemetrySession)
deriving DecidableEq, Repr

/-- The state the constructor creates: no session at all. -/
def initTelemetry : TelemetryState := { device := none, apps := [] }

/-- The metrics topic (`dab_topics.js` is not part of the repository
snapshot; only the constant's identity matters to the claims). -/
def TELEMETRY_METRICS_TOPIC : String := "dab/telemetry/metrics"

/-- A publish to the broker: target topic and carried value. -/
abbrev PubEvent := String × PubValue

/-- `this.telemetry[appId]` — lookup of an application key. -/
def lookupApp? (apps : List (String × TelemetrySession)) (appId : String) :
    Option TelemetrySession :=
  (apps.find? (fun p => p.1 == appId)).map (fun p => p.2)

/-- `delete this.telemetry[appId]` — removal of an application key. -/
def removeApp (apps : List (String × TelemetrySession)) (appId : String) :
    List (String × TelemetrySession) :=
  apps.filter (fun p => !(p.1 == appId))

/-- A start response: `{...dabResponse(), frequency}` on success, a plain
error envelope otherwise (the `frequency` field is then absent). -/
structure StartTelemetryResponse where
  status : Int
  error : Option String
  frequency : Option Int
deriving DecidableEq, Repr

/-- Embedding of `DabDeviceBase.startDeviceTelemetryImpl` (part_000 lines
338-353): reject a non-integer `frequency`; reject when a device session
exists; otherwise publish `await cb()` once to the metrics topic, store the
interval handle, and answer 200 with the frequency. Returns the response,
the new telemetry map and the immediate publishes. -/
def startDeviceTelemetryImpl (st : TelemetryState) (frequency : Option JsNum) :
    StartTelemetryResponse × TelemetryState × List PubEvent :=
  match frequency with
  | some (JsNum.int n) =>
    if st.device.isSome then
      ({ status := 400,
         error := some "Device telemetry is already started, stop it first",
         frequency := none }, st, [])
    else
      ({ status := 200, error := none, frequency := some n },
       { st with device := some { frequency := n, each := PubValue.producerResult } },
       [(TELEMETRY_METRICS_TOPIC, PubValue.producerResult)])
  | _ =>
    ({ status := 400,
       error := some "'frequency' must be set as number of milliseconds between updates",
       frequency := none }, st, [])

/-- Embedding of `DabDeviceBase.startAppTelemetryImpl` (part_000 lines
355-376): reject a non-string `appId` or non-integer `frequency`; reject
when the key already has a session; otherwise publish `await cb` — the
callback function itself, not invoked — to `<metrics>/<appId>`, store the
interval handle (whose firings publish the same `await cb`), and answer
200 with the frequency. -/
def startAppTelemetryImpl (st : TelemetryState) (appId : Option String)
    (frequency : Option JsNum) :
    StartTelemetryResponse × TelemetryState × List PubEvent :=
  match appId with
  | none =>
    ({ status := 400,
       error := some "'app' must be set as the application id to start sending telemetry",
       frequency := none }, st, [])
  | some app =>
    match frequency with
    | some (JsNum.int n) =>
      if (lookupApp? st.apps app).isSome then
        ({ status := 400,
           error := some ("App telemetry is already started for " ++ app ++ ", stop it first"),
           frequency := none }, st, [])
      else
        ({ status := 200, error := none, frequency := some n },
         { st with
             apps := (app, { frequency := n, each := PubValue.producerFunction }) :: st.apps },
         [(TELEMETRY_METRICS_TOPIC ++ "/" ++ app, PubValue.producerFunction)])
    | _ =>
      ({ status := 400,
         error := some "'frequency' must be set as number of milliseconds between updates",
         frequency := none }, st, [])

/-- Embedding of `DabDeviceBase.stopDeviceTelemetryImpl` (part_000 lines
574-582): 400 when no device session exists; otherwise `clearInterval`,
delete the key and answer 200. -/
def stopDeviceTelemetryImpl (st : TelemetryState) : DabResponse × TelemetryState :=
  match st.device with
  | none => ({ status := 400, error := some "Device telemetry not started" }, st)
  | some _ => ({ status := 200, error := none }, { st with device := none })

/-- Embedding of `DabDeviceBase.stopAppTelemetry` (part_000 lines 606-617):
400 for a non-string `appId`; 400 when the key has no session (the source's
message text literally contains "$\x7bdata.app\x7d" — it is not a template
literal); otherwise `clearInterval`, delete the key and answer 200. -/
def stopAppTelemetry (st : TelemetryState) (appId : Option String) :
    DabResponse × TelemetryState :=
  match appId with
  | none =>
    ({ status := 400,
       error := some "'app' must be set as the application id to stop sending telemetry" }, st)
  | some app =>
    match lookupApp? st.apps app with
    | none =>
      ({ status := 400, error := some "Device telemetry for $\x7bdata.app\x7d not started" }, st)
    | some _ => ({ status := 200, error := none }, { st with apps := removeApp st.apps app })

/-- What one firing of the device interval publishes: the stored session's
value, nothing when no device session is scheduled. -/
def tickDevice (st : TelemetryState) : List PubEvent :=
  match st.device with
  | some s => [(TELEMETRY_METRICS_TOPIC, s.each)]
  | none => []

/-- What one firing of an application key's interval publishes. -/
def tickApp (st : TelemetryState) (appId : String) : List PubEvent :=
  match lookupApp? st.apps appId with
  | some s => [(TELEMETRY_METRICS_TOPIC ++ "/" ++ appId, s.each)]
  | none => []

/-- Embedding of `DabDevice.startDeviceTelemetry` (dab_adb_bridge.ts lines
243-258): reject a non-number or non-integer `frequency`; raise a
frequency below the configured platform minimum to that minimum; then
delegate to `startDeviceTelemetryImpl` with `adb.top` as producer. -/
def bridgeStartDeviceTelemetry (minFreq : Int) (st : TelemetryState)
    (frequency : Option JsNum) :
    StartTelemetryResponse × TelemetryState × List PubEvent :=
  match frequency with
  | some (JsNum.int n) =>
    let n' := if n < minFreq then minFreq else n
    startDeviceTelemetryImpl st (some (JsNum.int n'))
  | _ =>
    ({ status := 400,
       error := some "'frequency' must be set as number of milliseconds between updates",
       frequency := none }, st, [])

/-! ### Adb bridge application handlers: `DabDevice.launchApp`,
`DabDevice.exitApp`, `DabDevice.getAppState` (dab_adb_bridge.ts lines
132-215)

For this section request strings are modelled as lists of characters, and
JavaScript's `String.prototype.toLowerCase` by mapping Lean's
`Char.toLower` (the basic-latin case mapping) over them. The `appMap`
configuration is an association list from application ids to entries. The
adb transport calls (`adb.start`, `adb.status`, `adb.backgroundApp`,
`adb.stop`) and the helpers of files outside the repository snapshot
(`adbAppStatusToDabAppState` in `util.js`, the enums of
`adb/app_status.ts` and `dab/dab_constants.ts`) are external collaborators
and enter the embedding as parameters; a thrown error is
`Except.error <message>` and is converted to a status-500 envelope by the
handlers' catch blocks, exactly as in the source. -/

/-- A request-side string value. -/
abbrev Str := List Char

/-- JavaScript's `data.appId.toLowerCase()`. -/
def jsToLowerCase (s : Str) : Str := s.map Char.toLower

/-- Modelled from the spec: `adb/app_status.ts` is not part of the
repository snapshot. The bridge compares against `Running` and `Stopped`;
`Background` stands for the remaining states. -/
inductive AndroidApplicationStatus where
  | Running
  | Stopped
  | Background
deriving DecidableEq, Repr

/-- Modelled from the spec: `dab/dab_constants.ts` is not part of the
repository snapshot. The bridge returns `Stopped` and `Background`
explicitly; `Foreground` completes the protocol's application states. -/
inductive ApplicationState where
  | Foreground
  | Background
  | Stopped
deriving DecidableEq, Repr

/-- An `appMap` configuration entry as the three handlers read it: the
device package name, the launch intent, and the optional intent pieces
inserted before array parameters. -/
structure AppEntry where
  package : Str
  intent : Option (List Str)
  optionsPrefix : Option (List Str)
deriving DecidableEq, Repr

/-- The `appMap` configuration table. -/
abbrev AppMap := List (Str × AppEntry)

/-- `this.appMap[appId]`. -/
def lookupEntry? (m : AppMap) (appId : Str) : Option AppEntry :=
  (m.find? (fun p => p.1 == appId)).map (fun p => p.2)

/-- The response envelope these handlers build: status, optional error
text, and the optional application `state` field that `exitApp` and
`getAppState` attach. -/
structure BridgeResponse where
  status : Int
  error : Option Str
  state : Option ApplicationState
deriving DecidableEq, Repr

/-- The `parameters` field of a launch request: absent (or another falsy
value), a string, or an array of strings. -/
inductive LaunchParams where
  | absent
  | str (s : Str)
  | arr (l : List Str)
deriving DecidableEq, Repr

/-- A launch request; `appId = none` models a non-string `appId` field. -/
structure LaunchRequest where
  appId : Option Str
  parameters : LaunchParams
deriving DecidableEq, Repr

/-- `intent[intent.length - 1] = intent[intent.length - 1] + s`: append to
the final element (the configured intents are non-empty; on an empty array
the JavaScript writes a stray "-1" property and the array stays empty,
modelled as the unchanged empty list). -/
def appendToLast (l : List Str) (s : Str) : List Str :=
  match l with
  | [] => []
  | [a] => [a ++ s]
  | a :: rest => a :: appendToLast rest s

/-- The intent array `launchApp` builds (dab_adb_bridge.ts lines 141-151):
start from a copy of the entry's intent; for array parameters first append
the entry's option pieces when configured, then the parameters; for a
truthy (non-empty) string parameter append it to the last intent element. -/
def buildIntent (entry : AppEntry) (intent0 : List Str) (params : LaunchParams) :
    List Str :=
  match params with
  | LaunchParams.arr l =>
    (match entry.optionsPrefix with
     | some op => intent0 ++ op
     | none => intent0) ++ l
  | LaunchParams.str s => if s ≠ [] then appendToLast intent0 s else intent0
  | LaunchParams.absent => intent0

/-- Embedding of `DabDevice.launchApp` (dab_adb_bridge.ts lines 132-159):
400 for a non-string `appId`; lowercase the id; 404 when the map has no
entry with an intent; build the intent, run `adb.start`, and convert a
thrown error to a 500 envelope. -/
def launchApp (appMap : AppMap) (adbStart : List Str → Except Str Unit)
    (data : LaunchRequest) : BridgeResponse :=
  match data.appId with
  | none =>
    { status := 400,
      error := some ("'appId' must be set as the application id to launch".toList),
      state := none }
  | some appId0 =>
    let appId := jsToLowerCase appId0
    match lookupEntry? appMap appId with
    | none =>
      { status := 404,
        error := some ("Couldn't find data for app ".toList ++ appId ++ " in config file".toList),
        state := none }
    | some entry =>
      match entry.intent with
      | none =>
        { status := 404,
          error := some ("Couldn't find data for app ".toList ++ appId ++ " in config file".toList),
          state := none }
      | some intent0 =>
        match adbStart (buildIntent entry intent0 data.parameters) with
        | Except.ok _ => { status := 200, error := none, state := none }
        | Except.error e => { status := 500, error := some e, state := none }

/-- An exit request; `force` defaults to falsy. -/
structure ExitRequest where
  appId : Option Str
  force : Bool
deriving DecidableEq, Repr

/-- `this.appMap[appId]?.package` followed by the `!appPackage` guard: no
entry, or an entry whose package is the falsy empty string, is a miss. -/
def lookupPackage? (m : AppMap) (appId : Str) : Option Str :=
  match lookupEntry? m appId with
  | none => none
  | some entry => if entry.package = [] then none else some entry.package

/-- Embedding of `DabDevice.exitApp` (dab_adb_bridge.ts lines 161-195):
400 for a non-string `appId`; lowercase the id; 404 when no package is
configured; read the app status (`?.state`, so a null status object gives
an absent state); with `force`, stop unless already stopped and answer
`Stopped`; otherwise background a running app, falling back to a stop when
backgrounding throws; otherwise answer the translated current state. Any
remaining thrown error becomes a 500 envelope. -/
def exitApp (appMap : AppMap)
    (adbStatus : Str → Except Str (Option AndroidApplicationStatus))
    (adbBackground : Str → Except Str Unit) (adbStop : Str → Except Str Unit)
    (st2dab : Option AndroidApplicationStatus → ApplicationState)
    (data : ExitRequest) : BridgeResponse :=
  match data.appId with
  | none =>
    { status := 400,
      error := some ("'appId' must be set as the application id to exit".toList),
      state := none }
  | some appId0 =>
    let appId := jsToLowerCase appId0
    match lookupPackage? appMap appId with
    | none =>
      { status := 404,
        error := some ("Couldn't find data for app ".toList ++ appId ++ " in config file".toList),
        state := none }
    | some pkg =>
      match adbStatus pkg with
      | Except.error e => { status := 500, error := some e, state := none }
      | Except.ok appStatus =>
        if data.force then
          if appStatus ≠ some AndroidApplicationStatus.Stopped then
            match adbStop pkg with
            | Except.error e => { status := 500, error := some e, state := none }
            | Except.ok _ =>
              { status := 200, error := none, state := some ApplicationState.Stopped }
          else { status := 200, error := none, state := some ApplicationState.Stopped }
        else if appStatus = some AndroidApplicationStatus.Running then
          match adbBackground pkg with
          | Except.ok _ =>
            { status := 200, error := none, state := some ApplicationState.Background }
          | Except.error _ =>
            match adbStop pkg with
            | Except.error e => { status := 500, error := some e, state := none }
            | Except.ok _ =>
              { status := 200, error := none, state := some ApplicationState.Stopped }
        else { status := 200, error := none, state := some (st2dab appStatus) }

/-- A get-application-state request. -/
structure StateRequest where
  appId : Option Str
deriving DecidableEq, Repr

/-- Embedding of `DabDevice.getAppState` (dab_adb_bridge.ts lines
197-215): 400 for a non-string `appId`; lowercase the id; 404 when no
package is configured; read `(await adb.status(pkg)).state` — here without
`?.`, so a null status object throws a TypeError (its runtime message is
the parameter `nullStateErr`) — and answer the translated state; thrown
errors become 500 envelopes. -/
def getAppState (appMap : AppMap)
    (adbStatus : Str → Except Str (Option AndroidApplicationStatus))
    (st2dab : Option AndroidApplicationStatus → ApplicationState)
    (nullStateErr : Str) (data : StateRequest) : BridgeResponse :=
  match data.appId with
  | none =>
    { status := 400,
      error := some ("'appId' must be set as the application id to query".toList),
      state := none }
  | some appId0 =>
    let appId := jsToLowerCase appId0
    match lookupPackage? appMap appId with
    | none =>
      { status := 404,
        error := some ("Couldn't find data for app ".toList ++ appId ++ " in config file".toList),
        state := none }
    | some pkg =>
      match adbStatus pkg with
      | Except.error e => { status := 500, error := some e, state := none }
      | Except.ok none => { status := 500, error := some nullStateErr, state := none }
      | Except.ok (some s) =>
        { status := 200, error := none, state := some (st2dab (some s)) }

/-! ### Helper lemmas -/

/-- Flooring division by 100 equals 2 exactly on the closed range
200..299. -/
theorem fdiv_100_eq_two_iff (n : Int) : n.fdiv 100 = 2 ↔ 200 ≤ n ∧ n ≤ 299 := by
  rw [Int.fdiv_eq_ediv n (by norm_num : (0 : Int) ≤ 100)]
  omega

/-- Removing a key makes its lookup fail. -/
theorem lookupApp?_removeApp (apps : List (String × TelemetrySession)) (appId : String) :
    lookupApp? (removeApp apps appId) appId = none := by
  induction apps with
  | nil => rfl
  | cons hd tl ih =>
    cases h : hd.1 == appId with
    | true =>
      simp only [removeApp, List.filter, h, Bool.not_true] at ih ⊢
      exact ih
    | false =>
      simp only [removeApp, List.filter, h, Bool.not_false] at ih ⊢
      unfold lookupApp? at ih ⊢
      rw [List.find?_cons_of_neg]
      · exact ih
      · simp [h]

/-- The basic-latin lowercase mapping is idempotent on characters. -/
theorem char_toLower_toLower (c : Char) : c.toLower.toLower = c.toLower := by
  unfold Char.toLower
  by_cases h : c.toNat ≥ 65 ∧ c.toNat ≤ 90
  · rw [if_pos h]
    have hv : Nat.isValidChar (c.toNat + 32) := Or.inl (by omega)
    have ht : (Char.ofNat (c.toNat + 32)).toNat = c.toNat + 32 := by
      simp only [Char.ofNat, hv, dif_pos]
      rfl
    rw [ht, if_neg (by omega)]
  · rw [if_neg h, if_neg h]

/-- Lowercasing is idempotent on strings. -/
theorem jsToLowerCase_idem (s : Str) : jsToLowerCase (jsToLowerCase s) = jsToLowerCase s := by
  unfold jsToLowerCase
  rw [List.map_map]
  exact List.map_congr_left (fun c _ => char_toLower_toLower c)

/-! ### Claims about the transport wrapper -/

/-- C3 counterexample: an empty payload delivered on a subscribed topic
does NOT yield the synthetic parse-failure envelope — the
`if (msg && msg.length)` guard skips parsing and the listener receives the
initial empty object `{}` instead. -/
theorem handleMessage_empty_payload_counterexample :
    handleMessage (fun _ => false) (some "") 7 = EmittedPayload.emptyObj ∧
    handleMessage (fun _ => false) (some "") 7 ≠
      EmittedPayload.parseFailure 500 "failed to parse msg" "" 7 :=
  ⟨rfl, fun h => nomatch h⟩

/-- C3 (amended): a NON-EMPTY inbound payload that fails to parse as JSON
is surfaced to listeners as the synthetic envelope
`{status: 500, error: "failed to parse msg", msg: <raw text>, packet}`
(the raw text travels under the key `msg`, not `raw`) and no exception is
thrown; an empty or missing payload instead yields the plain empty object. -/
theorem handleMessage_parse_failure (jsonParses : String → Bool) (s : String)
    (pkt : Nat) (hne : s ≠ "") (hbad : jsonParses s = false) :
    handleMessage jsonParses (some s) pkt =
      EmittedPayload.parseFailure 500 "failed to parse msg" s pkt ∧
    handleMessage jsonParses (some "") pkt = EmittedPayload.emptyObj ∧
    handleMessage jsonParses none pkt = EmittedPayload.emptyObj := by
  refine ⟨?_, rfl, rfl⟩
  have hlen : s.length ≠ 0 := fun h0 => hne (by
    cases s with
    | mk data =>
      simp [String.length] at h0
      simp [h0])
  simp [handleMessage, hlen, hbad]

/-- C3 witness: the amended behaviour evaluated on the raw text
"not json". -/
theorem handleMessage_parse_failure_witness :
    handleMessage (fun _ => false) (some "not json") 3 =
      EmittedPayload.parseFailure 500 "failed to parse msg" "not json" 3 ∧
    handleMessage (fun _ => false) (some "") 3 = EmittedPayload.emptyObj ∧
    handleMessage (fun _ => false) none 3 = EmittedPayload.emptyObj :=
  handleMessage_parse_failure (fun _ => false) "not json" 3 (by decide) rfl

/-! ### Claims about the correlation layer -/

/-- C9: the listener's resolve/reject decision is exactly the JavaScript
comparison `msg.status > 299`: the first arriving message settles the
promise with `respondOutcome`, rejection happens precisely when the
comparison is true, and a message with a missing status field or with a
status below 200 resolves the promise as a success carrying that
message. -/
theorem request_status_decision (m : RespMsg) (s : Int) :
    (initReqState.step (ReqEvent.respond m)).settled = some (respondOutcome m) ∧
    (respondOutcome m = ReqOutcome.appError m ↔ jsGtStatus m.status 299 = true) ∧
    (m.status = none → respondOutcome m = ReqOutcome.success m) ∧
    (m.status = some s → s < 200 → respondOutcome m = ReqOutcome.success m) := by
  refine ⟨rfl, ?_, ?_, ?_⟩
  · unfold respondOutcome
    cases h : jsGtStatus m.status 299 with
    | true => simp
    | false => simp
  · intro h
    simp [respondOutcome, jsGtStatus, h]
  · intro h hlt
    have : jsGtStatus m.status 299 = false := by
      simp [jsGtStatus, h]
      omega
    simp [respondOutcome, this]

/-- C9 witness: a message with no status field and one with status 100
both resolve as success. -/
theorem request_status_decision_witness :
    respondOutcome { status := none, body := 0 } =
      ReqOutcome.success { status := none, body := 0 } ∧
    respondOutcome { status := some 100, body := 1 } =
      ReqOutcome.success { status := some 100, body := 1 } :=
  ⟨(request_status_decision { status := none, body := 0 } 0).2.2.1 rfl,
   (request_status_decision { status := some 100, body := 1 } 100).2.2.2 rfl
     (by norm_num)⟩

/-- C1 counterexample: when the initial publish fails, the `catch` handler
rejects with the transport error and tears down the subscription but does
NOT call `clearTimeout` — contrary to the claim, the timer is still armed
after this terminal transition. -/
theorem request_publish_failure_timer_counterexample :
    (initReqState.step ReqEvent.publishFails).settled =
      some ReqOutcome.transportError ∧
    (initReqState.step ReqEvent.publishFails).timerArmed = true ∧
    (initReqState.step ReqEvent.publishFails).listenerActive = false := by
  refine ⟨rfl, rfl, rfl⟩

/-- C1 (amended): exactly one terminal transition settles the promise — a
response with status in [200,299] resolves with that payload, a response
with status at least 300 rejects with it, the timer firing first rejects
with the timeout error, a failed initial publish rejects with the
transport error. The subscription is torn down in every case and the timer
is cancelled in the response cases (and has just fired in the timeout
case), but after a failed publish the timer stays armed; every event after
settlement — in particular that timer's later firing — is a no-op on the
settled outcome. -/
theorem request_terminal_transitions (m : RespMsg) (s : Int) (e : ReqEvent)
    (st : ReqState) :
    (m.status = some s → 200 ≤ s → s ≤ 299 →
      initReqState.step (ReqEvent.respond m) =
        { settled := some (ReqOutcome.success m), timerArmed := false,
          listenerActive := false }) ∧
    (m.status = some s → 300 ≤ s →
      initReqState.step (ReqEvent.respond m) =
        { settled := some (ReqOutcome.appError m), timerArmed := false,
          listenerActive := false }) ∧
    (initReqState.step ReqEvent.timerFires =
      { settled := some ReqOutcome.timedOut, timerArmed := false,
        listenerActive := false }) ∧
    (initReqState.step ReqEvent.publishFails =
      { settled := some ReqOutcome.transportError, timerArmed := true,
        listenerActive := false }) ∧
    (st.settled.isSome = true → (st.step e).settled = st.settled) := by
  refine ⟨?_, ?_, rfl, rfl, ?_⟩
  · intro h h1 h2
    have : jsGtStatus m.status 299 = false := by
      simp [jsGtStatus, h]
      omega
    simp [ReqState.step, initReqState, settleOnce, respondOutcome, this]
  · intro h h1
    have : jsGtStatus m.status 299 = true := by
      simp [jsGtStatus, h]
      omega
    simp [ReqState.step, initReqState, settleOnce, respondOutcome, this]
  · intro h
    match hs : st.settled, e with
    | some o, ReqEvent.respond m' =>
      simp [ReqState.step, settleOnce, hs]
      split <;> simp [hs]
    | some o, ReqEvent.timerFires =>
      simp [ReqState.step, settleOnce, hs]
      split <;> simp [hs]
    | some o, ReqEvent.publishFails =>
      simp [ReqState.step, settleOnce, hs]
    | none, _ => simp [hs] at h

/-- C1 witness: the four transitions and the no-op rule evaluated on
concrete envelopes (status 250 and status 404) and on an already settled
state hit by a late timer firing. -/
theorem request_terminal_transitions_witness :
    initReqState.step (ReqEvent.respond { status := some 250, body := 1 }) =
      { settled := some (ReqOutcome.success { status := some 250, body := 1 }),
        timerArmed := false, listenerActive := false } ∧
    initReqState.step (ReqEvent.respond { status := some 404, body := 2 }) =
      { settled := some (ReqOutcome.appError { status := some 404, body := 2 }),
        timerArmed := false, listenerActive := false } ∧
    (ReqState.step
      { settled := some ReqOutcome.transportError, timerArmed := true,
        listenerActive := false } ReqEvent.timerFires).settled =
      some ReqOutcome.transportError :=
  ⟨(request_terminal_transitions { status := some 250, body := 1 } 250
      ReqEvent.timerFires initReqState).1 rfl (by norm_num) (by norm_num),
   (request_terminal_transitions { status := some 404, body := 2 } 404
      ReqEvent.timerFires initReqState).2.1 rfl (by norm_num),
   (request_terminal_transitions { status := some 404, body := 2 } 404
      ReqEvent.timerFires
      { settled := some ReqOutcome.transportError, timerArmed := true,
        listenerActive := false }).2.2.2.2 rfl⟩

/-- C2: in the synchronous executor of `request`, the transport subscribe
call for the response topic `_response/<topic>/<id>` is issued strictly
before the transport publish of the request to `<topic>/<id>` (and the
local listener is registered before both), and no publish is issued at any
earlier position — the subscribe-then-publish ordering that prevents a
fast response from being missed. -/
theorem request_subscribe_precedes_publish (cp : String → String)
    (topic rid : String) :
    (requestSetupOps cp topic rid)[2]? =
      some (SetupOp.brokerSubscribe (responseTopicOf topic rid)) ∧
    (requestSetupOps cp topic rid)[3]? =
      some (SetupOp.brokerPublish (requestTopicOf topic rid)) ∧
    (∀ i t, (requestSetupOps cp topic rid)[i]? = some (SetupOp.brokerPublish t) →
      i = 3) := by
  refine ⟨rfl, rfl, ?_⟩
  intro i t h
  match i with
  | 0 => simp [requestSetupOps] at h
  | 1 => simp [requestSetupOps] at h
  | 2 => simp [requestSetupOps] at h
  | 3 => rfl
  | (n + 4) => simp [requestSetupOps] at h

/-- C2 witness: the ordering evaluated on a concrete topic and request
id. -/
theorem request_subscribe_precedes_publish_witness :
    (requestSetupOps (fun s => s) "appLifecycle/launch" "id1")[2]? =
      some (SetupOp.brokerSubscribe (responseTopicOf "appLifecycle/launch" "id1")) ∧
    (requestSetupOps (fun s => s) "appLifecycle/launch" "id1")[3]? =
      some (SetupOp.brokerPublish (requestTopicOf "appLifecycle/launch" "id1")) ∧
    (∀ i t, (requestSetupOps (fun s => s) "appLifecycle/launch" "id1")[i]? =
      some (SetupOp.brokerPublish t) → i = 3) :=
  request_subscribe_precedes_publish (fun s => s) "appLifecycle/launch" "id1"

/-! ### Claims about the status envelope builder -/

/-- C8: every envelope the builder returns carries an error text exactly
when its integer status lies outside the 200..299 range (a non-2xx call
without an error text throws instead of returning an envelope, and the
builder never attaches the optional text to a 2xx envelope). -/
theorem dabResponse_error_iff_non2xx (status : Int) (error : Option String)
    (r : DabResponse) (h : dabResponse status error = Except.ok r) :
    r.error.isSome = true ↔ ¬(200 ≤ r.status ∧ r.status ≤ 299) := by
  unfold dabResponse at h
  split at h
  · rename_i h2
    split at h
    · cases h
    · rename_i e
      split at h
      · cases h
      · cases h
        have hns : ¬(200 ≤ status ∧ status ≤ 299) := fun hc =>
          h2 ((fdiv_100_eq_two_iff status).mpr hc)
        simpa using hns
  · rename_i h2
    cases h
    have hs : 200 ≤ status ∧ status ≤ 299 :=
      (fdiv_100_eq_two_iff status).mp (not_not.mp h2)
    simpa using hs

/-- C8 witness: the builder evaluated at a 404 envelope and the
equivalence discharged there. -/
theorem dabResponse_error_iff_non2xx_witness :
    (({ status := 404, error := some "Not found" } : DabResponse).error.isSome = true ↔
      ¬(200 ≤ ({ status := 404, error := some "Not found" } : DabResponse).status ∧
        ({ status := 404, error := some "Not found" } : DabResponse).status ≤ 299)) :=
  dabResponse_error_iff_non2xx 404 (some "Not found")
    { status := 404, error := some "Not found" } rfl

/-! ### Claims about the telemetry session manager -/

/-- C4: at most one telemetry session is active per key — a start call for
the device key while a device session runs, or for an application key that
already has a session, returns the already-active 400 error envelope,
leaves the telemetry map unchanged and publishes nothing, and the running
session's schedule still publishes its original value on the next
period. -/
theorem start_telemetry_one_session_per_key (st : TelemetryState) (n : Int)
    (app : String) (sd sa : TelemetrySession) :
    (st.device = some sd →
      startDeviceTelemetryImpl st (some (JsNum.int n)) =
        ({ status := 400,
           error := some "Device telemetry is already started, stop it first",
           frequency := none }, st, []) ∧
      tickDevice (startDeviceTelemetryImpl st (some (JsNum.int n))).2.1 =
        [(TELEMETRY_METRICS_TOPIC, sd.each)]) ∧
    (lookupApp? st.apps app = some sa →
      startAppTelemetryImpl st (some app) (some (JsNum.int n)) =
        ({ status := 400,
           error := some ("App telemetry is already started for " ++ app ++ ", stop it first"),
           frequency := none }, st, []) ∧
      tickApp (startAppTelemetryImpl st (some app) (some (JsNum.int n))).2.1 app =
        [(TELEMETRY_METRICS_TOPIC ++ "/" ++ app, sa.each)]) := by
  constructor
  · intro h
    constructor
    · simp [startDeviceTelemetryImpl, h]
    · simp [startDeviceTelemetryImpl, tickDevice, h]
  · intro h
    constructor
    · simp [startAppTelemetryImpl, h]
    · simp [startAppTelemetryImpl, tickApp, h]

/-- C4 witness: a second device start and a second start for the
application id "youtube" both rejected while their sessions run. -/
theorem start_telemetry_one_session_per_key_witness :
    startDeviceTelemetryImpl
      { device := some { frequency := 1000, each := PubValue.producerResult },
        apps := [("youtube", { frequency := 2000, each := PubValue.producerFunction })] }
      (some (JsNum.int 500)) =
      ({ status := 400,
         error := some "Device telemetry is already started, stop it first",
         frequency := none },
       { device := some { frequency := 1000, each := PubValue.producerResult },
         apps := [("youtube", { frequency := 2000, each := PubValue.producerFunction })] },
       []) ∧
    startAppTelemetryImpl
      { device := some { frequency := 1000, each := PubValue.producerResult },
        apps := [("youtube", { frequency := 2000, each := PubValue.producerFunction })] }
      (some "youtube") (some (JsNum.int 500)) =
      ({ status := 400,
         error := some ("App telemetry is already started for " ++ "youtube" ++ ", stop it first"),
         frequency := none },
       { device := some { frequency := 1000, each := PubValue.producerResult },
         apps := [("youtube", { frequency := 2000, each := PubValue.producerFunction })] },
       []) :=
  ⟨((start_telemetry_one_session_per_key
      { device := some { frequency := 1000, each := PubValue.producerResult },
        apps := [("youtube", { frequency := 2000, each := PubValue.producerFunction })] }
      500 "youtube" { frequency := 1000, each := PubValue.producerResult }
      { frequency := 2000, each := PubValue.producerFunction }).1 rfl).1,
   ((start_telemetry_one_session_per_key
      { device := some { frequency := 1000, each := PubValue.producerResult },
        apps := [("youtube", { frequency := 2000, each := PubValue.producerFunction })] }
      500 "youtube" { frequency := 1000, each := PubValue.producerResult }
      { frequency := 2000, each := PubValue.producerFunction }).2 rfl).1⟩

/-- C5: evaluating the session manager at a concrete successful
application-telemetry start shows the divergence from the claim: the
immediate publish and every scheduled publish for the application key
carry the producer function object itself (the source awaits `cb` without
invoking it), never the producer's result — while the device path does
publish the producer's result. -/
theorem startAppTelemetry_publishes_callback_itself :
    startAppTelemetryImpl initTelemetry (some "youtube") (some (JsNum.int 1000)) =
      ({ status := 200, error := none, frequency := some 1000 },
       { device := none,
         apps := [("youtube", { frequency := 1000, each := PubValue.producerFunction })] },
       [(TELEMETRY_METRICS_TOPIC ++ "/" ++ "youtube", PubValue.producerFunction)]) ∧
    PubValue.producerFunction ≠ PubValue.producerResult ∧
    startDeviceTelemetryImpl initTelemetry (some (JsNum.int 1000)) =
      ({ status := 200, error := none, frequency := some 1000 },
       { device := some { frequency := 1000, each := PubValue.producerResult },
         apps := [] },
       [(TELEMETRY_METRICS_TOPIC, PubValue.producerResult)]) :=
  ⟨rfl, by decide, rfl⟩

/-- C6 counterexample: a start call with frequency 0 — not a positive
integer — is accepted: the response is 200 and a session with period 0 is
created; a negative integer frequency is accepted the same way. -/
theorem start_telemetry_zero_frequency_counterexample :
    (startDeviceTelemetryImpl initTelemetry (some (JsNum.int 0))).1.status = 200 ∧
    (startDeviceTelemetryImpl initTelemetry (some (JsNum.int 0))).2.1.device =
      some { frequency := 0, each := PubValue.producerResult } ∧
    (startDeviceTelemetryImpl initTelemetry (some (JsNum.int (-5)))).1.status = 200 ∧
    (startAppTelemetryImpl initTelemetry (some "youtube")
      (some (JsNum.int (-5)))).1.status = 200 :=
  ⟨rfl, rfl, rfl, rfl⟩

/-- C6 (amended): a start call is rejected with the invalid-argument 400
envelope — and no session is created, no publish made — exactly when the
frequency is not an integer number (missing, non-number, or fractional);
integer frequencies, zero and negative ones included, pass validation, the
adb bridge device path first raising any integer frequency below the
configured platform minimum to that minimum. -/
theorem start_telemetry_rejects_non_integer_frequency (st : TelemetryState)
    (freq : Option JsNum) (app : String) (n minF : Int)
    (h : freq = none ∨ freq = some JsNum.nonInt) :
    startDeviceTelemetryImpl st freq =
      ({ status := 400,
         error := some "'frequency' must be set as number of milliseconds between updates",
         frequency := none }, st, []) ∧
    startAppTelemetryImpl st (some app) freq =
      ({ status := 400,
         error := some "'frequency' must be set as number of milliseconds between updates",
         frequency := none }, st, []) ∧
    bridgeStartDeviceTelemetry minF st freq =
      ({ status := 400,
         error := some "'frequency' must be set as number of milliseconds between updates",
         frequency := none }, st, []) ∧
    bridgeStartDeviceTelemetry minF st (some (JsNum.int n)) =
      startDeviceTelemetryImpl st
        (some (JsNum.int (if n < minF then minF else n))) := by
  rcases h with h | h <;> subst h <;>
    exact ⟨rfl, rfl, rfl, rfl⟩

/-- C6 witness: a missing frequency rejected by all three entry points, and
the bridge raising frequency 100 to the platform minimum 500. -/
theorem start_telemetry_rejects_non_integer_frequency_witness :
    startDeviceTelemetryImpl initTelemetry none =
      ({ status := 400,
         error := some "'frequency' must be set as number of milliseconds between updates",
         frequency := none }, initTelemetry, []) ∧
    startAppTelemetryImpl initTelemetry (some "youtube") none =
      ({ status := 400,
         error := some "'frequency' must be set as number of milliseconds between updates",
         frequency := none }, initTelemetry, []) ∧
    bridgeStartDeviceTelemetry 500 initTelemetry none =
      ({ status := 400,
         error := some "'frequency' must be set as number of milliseconds between updates",
         frequency := none }, initTelemetry, []) ∧
    bridgeStartDeviceTelemetry 500 initTelemetry (some (JsNum.int 100)) =
      startDeviceTelemetryImpl initTelemetry
        (some (JsNum.int (if (100 : Int) < 500 then 500 else 100))) :=
  start_telemetry_rejects_non_integer_frequency initTelemetry none "youtube"
    100 500 (Or.inl rfl)

/-- C7: stopping a key with no active session returns the not-started 400
envelope and leaves the telemetry map unchanged; stopping a key with an
active session answers 200, removes the key from the map, and afterwards a
firing of that key's period publishes nothing — the producer is not
invoked again. -/
theorem stop_telemetry_cancels_schedule (st : TelemetryState) (app : String) :
    (st.device = none →
      stopDeviceTelemetryImpl st =
        ({ status := 400, error := some "Device telemetry not started" }, st)) ∧
    (st.device.isSome = true →
      (stopDeviceTelemetryImpl st).1 = { status := 200, error := none } ∧
      (stopDeviceTelemetryImpl st).2 = { st with device := none } ∧
      tickDevice (stopDeviceTelemetryImpl st).2 = []) ∧
    (lookupApp? st.apps app = none →
      stopAppTelemetry st (some app) =
        ({ status := 400,
           error := some "Device telemetry for $\x7bdata.app\x7d not started" }, st)) ∧
    ((lookupApp? st.apps app).isSome = true →
      (stopAppTelemetry st (some app)).1 = { status := 200, error := none } ∧
      (stopAppTelemetry st (some app)).2 = { st with apps := removeApp st.apps app } ∧
      tickApp (stopAppTelemetry st (some app)).2 app = []) := by
  refine ⟨?_, ?_, ?_, ?_⟩
  · intro h
    simp [stopDeviceTelemetryImpl, h]
  · intro h
    match hd : st.device with
    | some s =>
      refine ⟨?_, ?_, ?_⟩ <;> simp [stopDeviceTelemetryImpl, tickDevice, hd]
    | none => simp [hd] at h
  · intro h
    simp [stopAppTelemetry, h]
  · intro h
    match hl : lookupApp? st.apps app with
    | some s =>
      refine ⟨?_, ?_, ?_⟩ <;>
        simp [stopAppTelemetry, tickApp, hl, lookupApp?_removeApp]
    | none => simp [hl] at h

/-- C7 witness: stopping with nothing running is a 400 no-op, stopping the
running device and "youtube" sessions removes them and silences their
periods. -/
theorem stop_telemetry_cancels_schedule_witness :
    stopDeviceTelemetryImpl initTelemetry =
      ({ status := 400, error := some "Device telemetry not started" },
       initTelemetry) ∧
    (stopDeviceTelemetryImpl
      { device := some { frequency := 1000, each := PubValue.producerResult },
        apps := [] }).2 =
      { device := none, apps := [] } ∧
    tickApp (stopAppTelemetry
      { device := none,
        apps := [("youtube", { frequency := 1000, each := PubValue.producerFunction })] }
      (some "youtube")).2 "youtube" = [] :=
  ⟨(stop_telemetry_cancels_schedule initTelemetry "youtube").1 rfl,
   ((stop_telemetry_cancels_schedule
      { device := some { frequency := 1000, each := PubValue.producerResult },
        apps := [] } "youtube").2.1 rfl).2.1,
   ((stop_telemetry_cancels_schedule
      { device := none,
        apps := [("youtube", { frequency := 1000, each := PubValue.producerFunction })] }
      "youtube").2.2.2 rfl).2.2⟩

/-! ### Claims about the adb bridge application handlers -/

/-- C10: `launchApp`, `exitApp` and `getAppState` lowercase the incoming
application id before the configuration lookup, so for every request with
a string `appId` the response is identical to the response for the same
request with `appId` replaced by its lowercase form — whatever the
configuration table and the adb transport do. -/
theorem appId_lowercase_invariant (appMap : AppMap)
    (adbStart : List Str → Except Str Unit)
    (adbStatus : Str → Except Str (Option AndroidApplicationStatus))
    (adbBackground : Str → Except Str Unit) (adbStop : Str → Except Str Unit)
    (st2dab : Option AndroidApplicationStatus → ApplicationState)
    (nullStateErr : Str) (s : Str) (params : LaunchParams) (force : Bool) :
    launchApp appMap adbStart { appId := some s, parameters := params } =
      launchApp appMap adbStart
        { appId := some (jsToLowerCase s), parameters := params } ∧
    exitApp appMap adbStatus adbBackground adbStop st2dab
        { appId := some s, force := force } =
      exitApp appMap adbStatus adbBackground adbStop st2dab
        { appId := some (jsToLowerCase s), force := force } ∧
    getAppState appMap adbStatus st2dab nullStateErr { appId := some s } =
      getAppState appMap adbStatus st2dab nullStateErr
        { appId := some (jsToLowerCase s) } := by
  refine ⟨?_, ?_, ?_⟩
  · simp only [launchApp, jsToLowerCase_idem]
  · simp only [exitApp, jsToLowerCase_idem]
  · simp only [getAppState, jsToLowerCase_idem]

end DabTools
